import Mathlib

/-
Verification of the imposter-game orchestration engine.

Shallow embedding of:
  * src/phase2/src/game_engine/validation.py
      (validate_clue, check_win_condition, resolve_vote_tie)
  * src/ai_game_simulation/src/game_engine/engine.py
      (GameEngine: initialize_game, run_game, _execute_clue_round,
       _execute_voting, _calculate_results)
  * src/ai_game_simulation/src/game_engine/validation.py is imported by the
    engine but is not present in the tree; its validate_clue (which takes a
    previous_clues parameter) is modelled from the spec.

Python strings are modelled as Lean String values, list-manipulating
Python builtins operate on the underlying character list.  External LLM
calls are modelled as total oracle functions supplied as parameters;
Python exceptions (RuntimeError, ValueError) are modelled with Except.
-/

set_option maxHeartbeats 1000000
set_option maxRecDepth 16384

/-- Characters that Python str.strip and str.split (with no argument) treat
as whitespace, restricted to the ASCII range that appears in game data. -/
def pyIsSpace (c : Char) : Bool :=
  (c == ' ') || (c == '\t') || (c == '\n') || (c == '\r') || (c == '\x0b') || (c == '\x0c')

/-- Python str.lower, character-wise (ASCII case mapping). -/
def pyLower (s : String) : String :=
  String.mk (s.data.map Char.toLower)

/-- Python str.strip with no argument: remove leading and trailing whitespace. -/
def pyStrip (s : String) : String :=
  String.mk (((s.data.dropWhile pyIsSpace).reverse.dropWhile pyIsSpace).reverse)

/-- Helper for pySplitLen: count maximal runs of non-whitespace characters.
The Bool records whether the scan is currently inside a run. -/
def countWords : List Char → Bool → Nat
  | [], _ => 0
  | c :: cs, inWord =>
    if pyIsSpace c then countWords cs false
    else (if inWord then 0 else 1) + countWords cs true

/-- Length of Python clue.split() with no separator: the number of maximal
whitespace-separated fields. -/
def pySplitLen (s : String) : Nat := countWords s.data false

/-- Python substring test (needle in hay): needle occurs contiguously in hay;
true for the empty needle. -/
def strContains (hay needle : String) : Bool :=
  hay.data.tails.any (fun t => needle.data.isPrefixOf t)

/-- Python list(dict.fromkeys(..))-style de-duplication keeping the first
occurrence of each element; used to model Python set/dict iteration where
only the set of elements matters to any claim. -/
def uniqueKeepFirst (l : List String) : List String :=
  l.foldl (fun acc t => if acc.contains t then acc else acc ++ [t]) []

/-- Player role in the game (src/ai_game_simulation/src/ai/schemas.py,
class PlayerRole). -/
inductive PlayerRole where
  | IMPOSTER
  | NON_IMPOSTER
deriving DecidableEq, Repr

/-- Result of validating a clue or action
(src/phase2/src/game_engine/validation.py, class ValidationResult). -/
structure ValidationResult where
  valid : Bool
  reason : Option String := none
  instant_reveal : Bool := false
  game_over : Bool := false
  message : Option String := none
deriving DecidableEq, Repr

namespace Phase2

/-- Validate a clue according to game rules
(src/phase2/src/game_engine/validation.py, validate_clue).
Rule 2 in the source is a nested pair of ifs whose inner if falls through
to Rule 3 when the length guard fails; that nesting is flattened here into
a single conjunction, which has the same control flow. -/
def validate_clue (clue : String) (secret_word : String) (player_id : String)
    (role : PlayerRole) : ValidationResult :=
  -- Rule 1: Cannot say the exact word
  if pyStrip (pyLower clue) = pyStrip (pyLower secret_word) then
    if role = PlayerRole.IMPOSTER then
      { valid := false, reason := some ("word_match"), instant_reveal := true,
        game_over := false,
        message := some (player_id ++ " said \x27" ++ clue ++
          "\x27 - the secret word! Imposter revealed and eliminated!") }
    else
      { valid := false, reason := some ("word_match"), instant_reveal := false,
        game_over := true,
        message := some (player_id ++ " broke the rule by saying the secret word \x27" ++
          clue ++ "\x27! Game over.") }
  -- Rule 2: word contained in clue (partial match), only for longer words
  else if (strContains (pyLower clue) (pyLower secret_word) ||
           strContains (pyLower secret_word) (pyLower clue)) &&
          decide (secret_word.length > 3) then
    { valid := false, reason := some ("partial_word_match"), instant_reveal := false,
      game_over := false,
      message := some (player_id ++ "\x27s clue \x27" ++ clue ++
        "\x27 contains part of the secret word!") }
  -- Rule 3: clue length check (warn if too long)
  else if decide (pySplitLen clue > 3) then
    { valid := true, reason := some ("long_clue"),
      message := some (player_id ++ " gave a " ++ toString (pySplitLen clue) ++
        "-word clue (\x27" ++ clue ++ "\x27). One word is standard.") }
  else
    { valid := true }

end Phase2

/-- Game end state (src/phase2/src/game_engine/validation.py, class WinCondition). -/
structure WinCondition where
  game_over : Bool
  winner : Option String
  reason : String
  eliminated_imposters : List String
  surviving_imposters : List String
deriving DecidableEq, Repr

/-- Check whether the game should end
(src/phase2/src/game_engine/validation.py, check_win_condition).
remaining_players is accepted but, as in the source, never read.
Python ints can go negative in remaining_civilians, hence Int. -/
def check_win_condition (eliminated_players : List String) (all_imposters : List String)
    (remaining_players : List String) (num_civilians : Nat) : WinCondition :=
  let eliminated_imposters := eliminated_players.filter (fun p => all_imposters.contains p)
  let surviving_imposters := all_imposters.filter (fun p => !(eliminated_players.contains p))
  -- Win Condition 1: All imposters eliminated
  if surviving_imposters.length = 0 then
    { game_over := true, winner := some ("civilians"),
      reason := "all_imposters_eliminated",
      eliminated_imposters := eliminated_imposters, surviving_imposters := [] }
  else
    -- Win Condition 2: Imposters equal or outnumber civilians
    let remaining_civilians : Int := (num_civilians : Int) -
      ((eliminated_players.filter (fun p => !(all_imposters.contains p))).length : Int)
    if decide ((surviving_imposters.length : Int) ≥ remaining_civilians) then
      { game_over := true, winner := some ("imposters"),
        reason := "imposters_outnumber_civilians",
        eliminated_imposters := eliminated_imposters,
        surviving_imposters := surviving_imposters }
    else
      { game_over := false, winner := none, reason := "game_in_progress",
        eliminated_imposters := eliminated_imposters,
        surviving_imposters := surviving_imposters }

/-- Insert into a list sorted ascending (stable); helper for pySorted. -/
def insertSorted (a : String) : List String → List String
  | [] => [a]
  | b :: bs => if a ≤ b then a :: b :: bs else b :: insertSorted a bs

/-- Python sorted() on a list of strings: ascending lexicographic order. -/
def pySorted (l : List String) : List String := l.foldr insertSorted []

/-- Resolve a tie in voting
(src/phase2/src/game_engine/validation.py, resolve_vote_tie).
random.choice is modelled by the injected choice function; Python raises
IndexError when indexing an empty list, modelled by the "" default. -/
def resolve_vote_tie (choice : List String → String) (tied_players : List String)
    (method : String) : String :=
  if method = ("random") then choice tied_players
  else if method = ("first") then (pySorted tied_players).headD ""
  else tied_players.headD ""

namespace Sim

/-- Modelled from the spec: the engine file
src/ai_game_simulation/src/game_engine/engine.py imports validate_clue
(with a previous_clues parameter) from a sibling validation module that is
not present under src/.  The rules follow spec section 4.2 in order:
(1) exact case-insensitive match of clue to secret word (imposter:
instant_reveal, game continues; non-imposter: game_over), (2) substring
containment either direction when the secret word is longer than 3
characters (invalid, not fatal), (3) duplicate of any earlier clue, exact
text match case-insensitive (invalid, not fatal), (4) more than 3
space-separated tokens (accepted but flagged). -/
def validate_clue (clue : String) (secret_word : String) (player_id : String)
    (role : PlayerRole) (previous_clues : List String) : ValidationResult :=
  if pyStrip (pyLower clue) = pyStrip (pyLower secret_word) then
    if role = PlayerRole.IMPOSTER then
      { valid := false, reason := some ("word_match"), instant_reveal := true,
        game_over := false,
        message := some (player_id ++ " said \x27" ++ clue ++
          "\x27 - the secret word! Imposter revealed and eliminated!") }
    else
      { valid := false, reason := some ("word_match"), instant_reveal := false,
        game_over := true,
        message := some (player_id ++ " broke the rule by saying the secret word \x27" ++
          clue ++ "\x27! Game over.") }
  else if (strContains (pyLower clue) (pyLower secret_word) ||
           strContains (pyLower secret_word) (pyLower clue)) &&
          decide (secret_word.length > 3) then
    { valid := false, reason := some ("partial_word_match"), instant_reveal := false,
      game_over := false,
      message := some (player_id ++ "\x27s clue \x27" ++ clue ++
        "\x27 contains part of the secret word!") }
  else if previous_clues.any (fun c => pyLower c = pyLower clue) then
    { valid := false, reason := some ("duplicate_clue"), instant_reveal := false,
      game_over := false,
      message := some (player_id ++ "\x27s clue \x27" ++ clue ++
        "\x27 was already given earlier in the game!") }
  else if decide (pySplitLen clue > 3) then
    { valid := true, reason := some ("long_clue"),
      message := some (player_id ++ " gave a " ++ toString (pySplitLen clue) ++
        "-word clue (\x27" ++ clue ++ "\x27). One word is standard.") }
  else
    { valid := true }

/-- Game state machine phases
(src/ai_game_simulation/src/game_engine/engine.py, class GamePhase). -/
inductive GamePhase where
  | SETUP
  | CLUE_ROUND
  | DISCUSSION
  | VOTING
  | REVEAL
  | COMPLETE
deriving DecidableEq, Repr

/-- Configuration for a game instance (engine.py, class GameConfig).
model_distribution is an ordered association list mirroring a Python dict;
temperature and discussion_turns only parameterize the external LLM calls
and are absorbed into the oracles. -/
structure GameConfig where
  word : String
  category : String
  num_players : Nat := 8
  num_imposters : Nat := 2
  num_rounds : Nat := 3
  model_strategy : String := "mixed"
  default_model : String := "gemini-3"
  model_distribution : List (String × Nat) :=
    [("gemini-3", 2), ("gemini-2.5", 2), ("gpt4o-mini", 2), ("haiku", 1), ("qwen-coder", 1)]
  enable_discussion : Bool := false
deriving DecidableEq, Repr

/-- Record of a single clue (engine.py, class ClueRecord). -/
structure ClueRecord where
  round : Nat
  player_id : String
  player_model : String
  role : PlayerRole
  clue : String
  thinking : String
  confidence : Int
  word_hypothesis : Option String := none
deriving DecidableEq, Repr

/-- Record of a batch vote (engine.py, class VoteRecord, legacy).  The
sequential engine never appends to its all_votes list, but
_calculate_results still reads it, so it is kept in the state. -/
structure VoteRecord where
  player_id : String
  voted_for : List String
  thinking : String
  confidence : Int
deriving DecidableEq, Repr

/-- Record of a single vote in sequential voting
(engine.py, class SingleVoteRecord). -/
structure SingleVoteRecord where
  voting_round : Nat
  player_id : String
  voted_for : String
  reasoning : String
  thinking : String
  confidence : Int
deriving DecidableEq, Repr

/-- Final game results (engine.py, class GameResult).
detection_accuracy is modelled as an exact rational. -/
structure GameResult where
  word : String
  category : String
  actual_imposters : List String
  eliminated_players : List String
  detection_accuracy : ℚ
  total_rounds : Nat
  all_clues : List ClueRecord
  all_votes : List VoteRecord
deriving DecidableEq, Repr

/-- One AI player as the engine sees it
(src/ai_game_simulation/src/game_engine/player.py, class AIPlayer).
The private conversation history only feeds the LLM prompts and is
absorbed into the oracles. -/
structure Player where
  player_id : String
  role : PlayerRole
  secret_word : Option String
  model_name : String
deriving DecidableEq, Repr

/-- The public clue dictionary the engine passes into prompt building
(engine.py, _get_clue_dicts). -/
structure ClueDict where
  round : Nat
  player_id : String
  clue : String
deriving DecidableEq, Repr

/-- The per-vote dictionary appended to votes_this_round (engine.py,
_execute_voting). -/
structure VoteDict where
  player_id : String
  vote : String
  reasoning : String
deriving DecidableEq, Repr

/-- Typed LLM response to a clue request (schemas.py, ClueResponse). -/
structure ClueResponse where
  clue : String
  thinking : String
  confidence : Int
  word_hypothesis : Option String := none
deriving DecidableEq, Repr

/-- Typed LLM response to a single sequential vote request
(schemas.py, SingleVoteResponse). -/
structure SingleVoteResponse where
  vote : String
  reasoning : String
  thinking : String
  confidence : Int
deriving DecidableEq, Repr

end Sim

namespace Sim

/-- Observable events the engine emits through its event callback
(engine.py, the event_callback dictionaries); only the fields any claim
inspects are carried. -/
inductive Event where
  | player_thinking (player_id : String) (action : String)
  | validation_error (player_id : String) (clue : String) (reason : Option String)
  | instant_reveal (player_id : String)
  | clue (round : Nat) (player_id : String) (clue : String)
  | voting_round_start (voting_round : Nat) (eliminated_so_far : List String)
  | vote (voting_round : Nat) (player_id : String) (vote : String)
  | elimination (voting_round : Nat) (eliminated_player : String) (was_imposter : Bool)
deriving DecidableEq, Repr

/-- Mutable engine state: the self.* fields of GameEngine (engine.py,
GameEngine.__init__ together with the config the engine was built from).
phase_trace records every assignment to self.phase, in order. -/
structure EngineState where
  config : GameConfig
  players : List Player
  current_round : Nat := 0
  all_clues : List ClueRecord := []
  all_votes : List VoteRecord := []
  sequential_votes : List SingleVoteRecord := []
  eliminated_players : List String := []
  game_ended_early : Bool := false
  early_end_reason : Option String := none
  phase_trace : List GamePhase := []
  events : List Event := []
deriving DecidableEq, Repr

/-- The LLM call answering a clue request: the varying inputs of
player.build_clue_messages are the player itself, the current round and
the public clue dictionaries (player.py, build_clue_messages); the
transport with its retries and fallbacks is out of scope, so the oracle is
total. -/
def ClueOracle : Type := Player → Nat → List ClueDict → ClueResponse

/-- The inputs of player.build_single_vote_messages for one vote request
(player.py, build_single_vote_messages), plus the corrective user message
when the engine re-prompts after an invalid target. -/
structure VoteQuery where
  player : Player
  voting_round : Nat
  total_voting_rounds : Nat
  clues : List ClueDict
  eliminated_players : List String
  previous_votes : List VoteDict
  word : String
  correction : Option String := none
deriving DecidableEq, Repr

/-- The LLM call answering a vote request; total for the same reason as
ClueOracle. -/
def VoteOracle : Type := VoteQuery → SingleVoteResponse

/-- Models random.choice for resolve_vote_tie's default method. -/
def TieChoice : Type := List String → String

/-- engine.py, _get_clue_dicts. -/
def _get_clue_dicts (st : EngineState) : List ClueDict :=
  st.all_clues.map (fun c => { round := c.round, player_id := c.player_id, clue := c.clue })

/-- engine.py, _count_remaining_imposters. -/
def _count_remaining_imposters (st : EngineState) : Nat :=
  let all_imposters := (st.players.filter (fun p => p.role = PlayerRole.IMPOSTER)).map
    (fun p => p.player_id)
  (all_imposters.filter (fun i => !(st.eliminated_players.contains i))).length

/-- engine.py, _check_win_condition. -/
def _check_win_condition (st : EngineState) : WinCondition :=
  let all_imposters := (st.players.filter (fun p => p.role = PlayerRole.IMPOSTER)).map
    (fun p => p.player_id)
  let remaining_players := (st.players.filter
    (fun p => !(st.eliminated_players.contains p.player_id))).map (fun p => p.player_id)
  let num_civilians := (st.players.filter (fun p => p.role = PlayerRole.NON_IMPOSTER)).length
  check_win_condition st.eliminated_players all_imposters remaining_players num_civilians

/-- One player's turn in a clue round (engine.py, _execute_clue_round loop
body).  The player's private record_clue bookkeeping only feeds later
prompts and is absorbed into the oracle.  The source's early return on
validation.game_over corresponds to the game_ended_early flag set here and
checked by clueTurns. -/
def clueTurn (oracle : ClueOracle) (st : EngineState) (p : Player) : EngineState :=
  let st1 := { st with events := st.events ++ [Event.player_thinking p.player_id ("clue")] }
  let response := oracle p st1.current_round (_get_clue_dicts st1)
  let previous_clue_words := st1.all_clues.map (fun c => c.clue)
  let validation := Sim.validate_clue response.clue st1.config.word p.player_id p.role
    previous_clue_words
  if validation.valid then
    let record : ClueRecord :=
      { round := st1.current_round, player_id := p.player_id,
        player_model := p.model_name, role := p.role, clue := response.clue,
        thinking := response.thinking, confidence := response.confidence,
        word_hypothesis := response.word_hypothesis }
    { st1 with all_clues := st1.all_clues ++ [record],
               events := st1.events ++
                 [Event.clue st1.current_round p.player_id response.clue] }
  else
    let st2 := { st1 with events := st1.events ++
      [Event.validation_error p.player_id response.clue validation.reason] }
    let st3 :=
      if validation.instant_reveal then
        { st2 with eliminated_players := st2.eliminated_players ++ [p.player_id],
                   events := st2.events ++ [Event.instant_reveal p.player_id] }
      else st2
    if validation.game_over then
      { st3 with game_ended_early := true, early_end_reason := validation.message }
    else st3

/-- The sequential for-loop over players in _execute_clue_round; the
source's return statement on a fatal violation is the stop on the
game_ended_early flag (the flag starts false on every round entered, is
set by clueTurn exactly in the fatal branch and never cleared). -/
def clueTurns (oracle : ClueOracle) : List Player → EngineState → EngineState
  | [], st => st
  | p :: rest, st =>
    let st1 := clueTurn oracle st p
    if st1.game_ended_early then st1 else clueTurns oracle rest st1

/-- engine.py, _execute_clue_round. -/
def _execute_clue_round (oracle : ClueOracle) (st : EngineState) : EngineState :=
  clueTurns oracle st.players st

end Sim

namespace Sim

/-- The corrective user message appended on an invalid vote target
(engine.py, _execute_voting); it spells out the valid targets. -/
def correction_message (vote_target : String) (valid_targets : List String) : String :=
  "Invalid vote! \x27" ++ vote_target ++
    "\x27 is not an active player. You MUST vote for one of these players: " ++
    String.intercalate (", ") valid_targets ++ ". Try again."

/-- One player's vote with target validation and the single corrective
re-prompt (engine.py, _execute_voting, vote validation block).  Returns
the accepted response and target or the fatal RuntimeError, together with
the list of oracle queries issued (so the number of re-prompts is
observable). -/
def getVote (oracle : VoteOracle) (q : VoteQuery) (valid_targets : List String) :
    Except String (SingleVoteResponse × String) × List VoteQuery :=
  let response := oracle q
  let vote_target := response.vote
  if valid_targets.contains vote_target then (Except.ok (response, vote_target), [q])
  else
    let q2 := { q with correction := some (correction_message vote_target valid_targets) }
    let response2 := oracle q2
    let vote_target2 := response2.vote
    if valid_targets.contains vote_target2 then
      (Except.ok (response2, vote_target2), [q, q2])
    else
      (Except.error ("Invalid vote target \x27" ++ vote_target2 ++ "\x27 from " ++
        q.player.player_id ++ " after retry"), [q, q2])

/-- The sequential for-loop over active players inside one voting
sub-round (engine.py, _execute_voting), threading the state and the
votes_this_round list. -/
def voteTurns (oracle : VoteOracle) (voting_round : Nat) (total_voting_rounds : Nat)
    (active_players : List Player) :
    List Player → EngineState → List VoteDict → Except String (EngineState × List VoteDict)
  | [], st, votes => Except.ok (st, votes)
  | p :: rest, st, votes =>
    let st1 := { st with events := st.events ++ [Event.player_thinking p.player_id ("vote")] }
    let q : VoteQuery :=
      { player := p, voting_round := voting_round,
        total_voting_rounds := total_voting_rounds, clues := _get_clue_dicts st1,
        eliminated_players := st1.eliminated_players, previous_votes := votes,
        word := st1.config.word }
    let valid_targets := (active_players.filter
      (fun a => a.player_id ≠ p.player_id)).map (fun a => a.player_id)
    match (getVote oracle q valid_targets).fst with
    | Except.error e => Except.error e
    | Except.ok (response, vote_target) =>
      let record : SingleVoteRecord :=
        { voting_round := voting_round, player_id := p.player_id,
          voted_for := vote_target, reasoning := response.reasoning,
          thinking := response.thinking, confidence := response.confidence }
      let votes2 := votes ++
        [{ player_id := p.player_id, vote := vote_target, reasoning := response.reasoning }]
      let st2 := { st1 with
        sequential_votes := st1.sequential_votes ++ [record],
        events := st1.events ++ [Event.vote voting_round p.player_id vote_target] }
      voteTurns oracle voting_round total_voting_rounds active_players rest st2 votes2

/-- Number of votes a target received this sub-round (the vote_counts
defaultdict of the source, tallied from votes_this_round). -/
def voteCount (votes : List VoteDict) (target : String) : Nat :=
  (votes.filter (fun v => v.vote = target)).length

/-- One voting sub-round (engine.py, _execute_voting loop body): active
players vote sequentially, then the tally eliminates one player.  The
returned Bool says whether an elimination happened, which in the source is
the `if vote_counts:` guard.  The distinct vote targets are enumerated in
first-vote order, matching Python dict insertion order. -/
def votingSubRound (oracle : VoteOracle) (choice : TieChoice) (voting_round : Nat)
    (total_voting_rounds : Nat) (st : EngineState) : Except String (EngineState × Bool) :=
  let st1 := { st with events := st.events ++
    [Event.voting_round_start voting_round st.eliminated_players] }
  let active_players := st1.players.filter
    (fun p => !(st1.eliminated_players.contains p.player_id))
  match voteTurns oracle voting_round total_voting_rounds active_players
      active_players st1 [] with
  | Except.error e => Except.error e
  | Except.ok (st2, votes) =>
    if votes.length = 0 then Except.ok (st2, false)
    else
      let targets := uniqueKeepFirst (votes.map (fun v => v.vote))
      let max_votes := (targets.map (voteCount votes)).foldl max 0
      let tied_players := targets.filter (fun t => voteCount votes t = max_votes)
      let eliminated :=
        if tied_players.length > 1 then resolve_vote_tie choice tied_players ("random")
        else tied_players.headD ""
      let eliminated_player := st2.players.find? (fun p => p.player_id = eliminated)
      let was_imposter :=
        match eliminated_player with
        | some p => decide (p.role = PlayerRole.IMPOSTER)
        | none => false
      let st3 := { st2 with
        eliminated_players := st2.eliminated_players ++ [eliminated],
        events := st2.events ++ [Event.elimination voting_round eliminated was_imposter] }
      Except.ok (st3, true)

/-- The for-loop over voting sub-rounds (engine.py, _execute_voting): the
win condition is re-checked after an elimination and the loop breaks when
it reports game over; with no elimination the loop just continues. -/
def votingLoop (oracle : VoteOracle) (choice : TieChoice) (total_voting_rounds : Nat) :
    Nat → Nat → EngineState → Except String EngineState
  | _, 0, st => Except.ok st
  | voting_round, n + 1, st =>
    match votingSubRound oracle choice voting_round total_voting_rounds st with
    | Except.error e => Except.error e
    | Except.ok (st1, eliminated) =>
      if eliminated && (_check_win_condition st1).game_over then Except.ok st1
      else votingLoop oracle choice total_voting_rounds (voting_round + 1) n st1

/-- engine.py, _execute_voting: as many sub-rounds as configured imposters. -/
def _execute_voting (oracle : VoteOracle) (choice : TieChoice) (st : EngineState) :
    Except String EngineState :=
  votingLoop oracle choice st.config.num_imposters 1 st.config.num_imposters st

end Sim

namespace Sim

/-- engine.py, _calculate_results.  The legacy batch-vote tally iterates a
Python dict in first-insertion order; list(set(..)) materializes a set, so
it is modelled by first-occurrence de-duplication (every claim about it
only inspects the underlying set).  correctly_identified is the
intersection of the set of eliminated players with the set of actual
imposters, computed here as a filter over the de-duplicated eliminated
list.  The final check_win_condition call of the source only feeds log
output and is omitted. -/
def _calculate_results (choice : TieChoice) (st : EngineState) : GameResult :=
  let batch_targets := st.all_votes.flatMap (fun v => v.voted_for)
  let vote_count_keys := uniqueKeepFirst batch_targets
  let batchCount := fun (t : String) => (batch_targets.filter (fun s => s = t)).length
  let eliminated_by_vote :=
    if vote_count_keys.length = 0 then []
    else
      let max_votes := (vote_count_keys.map batchCount).foldl max 0
      let tied_players := vote_count_keys.filter (fun t => batchCount t = max_votes)
      if tied_players.length > 1 then [resolve_vote_tie choice tied_players ("random")]
      else [tied_players.headD ""]
  let all_eliminated := uniqueKeepFirst (st.eliminated_players ++ eliminated_by_vote)
  let actual_imposters := (st.players.filter
    (fun p => p.role = PlayerRole.IMPOSTER)).map (fun p => p.player_id)
  let correctly_identified := all_eliminated.filter
    (fun p => actual_imposters.contains p)
  let accuracy : ℚ :=
    if actual_imposters.length ≠ 0 then
      (correctly_identified.length : ℚ) / (actual_imposters.length : ℚ)
    else 0
  { word := st.config.word, category := st.config.category,
    actual_imposters := actual_imposters,
    eliminated_players := all_eliminated,
    detection_accuracy := accuracy,
    total_rounds := st.current_round,
    all_clues := st.all_clues, all_votes := st.all_votes }

/-- The clue-rounds for-loop of run_game (engine.py, run_game): rounds
r, r+1, ... while fuel lasts; breaks on game_ended_early or on a met win
condition.  _execute_discussion_phase is a logged no-op in the source, so
the optional discussion phase only leaves its phase assignment. -/
def roundLoop (oracle : ClueOracle) : Nat → Nat → EngineState → EngineState
  | _, 0, st => st
  | r, n + 1, st =>
    let st1 := { st with
      current_round := r,
      phase_trace := st.phase_trace ++ [GamePhase.CLUE_ROUND] }
    let st2 := _execute_clue_round oracle st1
    if st2.game_ended_early then st2
    else if (_check_win_condition st2).game_over then st2
    else
      let st3 :=
        if st2.config.enable_discussion then
          { st2 with phase_trace := st2.phase_trace ++ [GamePhase.DISCUSSION] }
        else st2
      roundLoop oracle (r + 1) n st3

/-- Tail of run_game: phase REVEAL, result computation, phase COMPLETE.
The engine object survives the call, so the final state is returned with
the result. -/
def finishGame (choice : TieChoice) (st : EngineState) : GameResult × EngineState :=
  let st1 := { st with phase_trace := st.phase_trace ++ [GamePhase.REVEAL] }
  let result := _calculate_results choice st1
  let st2 := { st1 with phase_trace := st1.phase_trace ++ [GamePhase.COMPLETE] }
  (result, st2)

/-- run_game from an intermediate state: the remaining clue rounds
starting at round r, then the voting phase unless the game ended early,
then result computation (engine.py, run_game after initialize_game). -/
def run_game_from (coracle : ClueOracle) (voracle : VoteOracle) (choice : TieChoice)
    (r : Nat) (fuel : Nat) (st : EngineState) : Except String (GameResult × EngineState) :=
  let st1 := roundLoop coracle r fuel st
  if st1.game_ended_early then Except.ok (finishGame choice st1)
  else
    let st2 := { st1 with phase_trace := st1.phase_trace ++ [GamePhase.VOTING] }
    match _execute_voting voracle choice st2 with
    | Except.error e => Except.error e
    | Except.ok st3 => Except.ok (finishGame choice st3)

/-- engine.py module constant DEFAULT_MODEL_DISTRIBUTION. -/
def DEFAULT_MODEL_DISTRIBUTION : List (String × Nat) :=
  [("gemini-3", 2), ("gemini-2.5", 2), ("gpt4o-mini", 2), ("haiku", 1), ("qwen-coder", 1)]

/-- Models Python random.sample(population, k): the selection itself is
the injected sampler; ValueError is raised exactly when k exceeds the
population size (k is a Nat here, so the negative case cannot arise). -/
def random_sample (sampler : List String → Nat → List String)
    (population : List String) (k : Nat) : Except String (List String) :=
  if k ≤ population.length then Except.ok (sampler population k)
  else Except.error ("Sample larger than population or is negative")

/-- engine.py, _assign_models; random.shuffle is the injected shuffle.
The while-loop padding and the slice of the source become replicate and
take; the model_assignments dict lookup (which cannot miss in the source)
is find? with the default model as fallback. -/
def _assign_models (shuffle : List String → List String) (cfg : GameConfig)
    (player_ids : List String) (imposter_ids : List String) : List (String × String) :=
  if cfg.model_strategy = ("single") then
    player_ids.map (fun pid => (pid, cfg.default_model))
  else if cfg.model_strategy = ("mixed") then
    let distribution :=
      if cfg.model_distribution.length = 0 then DEFAULT_MODEL_DISTRIBUTION
      else cfg.model_distribution
    let model_pool := distribution.foldl
      (fun pool mc => pool ++ List.replicate mc.snd mc.fst) []
    let model_pool := model_pool ++
      List.replicate (player_ids.length - model_pool.length) cfg.default_model
    let model_pool := model_pool.take player_ids.length
    let model_pool := shuffle model_pool
    player_ids.zip model_pool
  else if cfg.model_strategy = ("role-based") then
    player_ids.map (fun pid =>
      (pid, if imposter_ids.contains pid then ("haiku") else ("llama")))
  else
    player_ids.map (fun pid => (pid, cfg.default_model))

/-- engine.py, initialize_game: build the player ids, randomly select the
imposters (random.sample), assign models, create the players.  No LLM
call occurs here; the only failure is the sampling ValueError. -/
def initialize_game (sampler : List String → Nat → List String)
    (shuffle : List String → List String) (cfg : GameConfig) :
    Except String EngineState :=
  let player_ids := (List.range cfg.num_players).map
    (fun i => "Player_" ++ toString (i + 1))
  match random_sample sampler player_ids cfg.num_imposters with
  | Except.error e => Except.error e
  | Except.ok imposter_ids =>
    let model_assignments := _assign_models shuffle cfg player_ids imposter_ids
    let players : List Player := player_ids.map (fun pid =>
      { player_id := pid,
        role := if imposter_ids.contains pid then PlayerRole.IMPOSTER
                else PlayerRole.NON_IMPOSTER,
        secret_word := if imposter_ids.contains pid then none else some cfg.word,
        model_name := ((model_assignments.find? (fun a => a.fst = pid)).map
          (fun a => a.snd)).getD cfg.default_model })
    Except.ok { config := cfg, players := players, phase_trace := [GamePhase.SETUP] }

/-- engine.py, run_game in full: initialization then rounds, voting and
results. -/
def run_game (sampler : List String → Nat → List String)
    (shuffle : List String → List String) (coracle : ClueOracle)
    (voracle : VoteOracle) (choice : TieChoice) (cfg : GameConfig) :
    Except String (GameResult × EngineState) :=
  match initialize_game sampler shuffle cfg with
  | Except.error e => Except.error e
  | Except.ok st => run_game_from coracle voracle choice 1 cfg.num_rounds st

end Sim

/-- The state at entry of the clue round numbered r: the first two
assignments of the round-loop body of run_game (engine.py, run_game). -/
def roundEntry (st : Sim.EngineState) (r : Nat) : Sim.EngineState :=
  { st with current_round := r,
            phase_trace := st.phase_trace ++ [Sim.GamePhase.CLUE_ROUND] }

/-- The state after the players before the violator have taken their turns
in clue round r. -/
def preTurnsState (coracle : Sim.ClueOracle) (st : Sim.EngineState) (r : Nat)
    (pre : List Sim.Player) : Sim.EngineState :=
  Sim.clueTurns coracle pre (roundEntry st r)

/-- The state right after the violator's fatal turn in clue round r. -/
def fatalTurnState (coracle : Sim.ClueOracle) (st : Sim.EngineState) (r : Nat)
    (pre : List Sim.Player) (v : Sim.Player) : Sim.EngineState :=
  Sim.clueTurn coracle (preTurnsState coracle st r pre) v

/-- Witness fixture: a non-imposter who knows the word. -/
def playerW1 : Sim.Player :=
  { player_id := "Player_1", role := PlayerRole.NON_IMPOSTER,
    secret_word := some "beach", model_name := "m" }

/-- Witness fixture: the non-imposter scripted to spoil the word. -/
def playerW2 : Sim.Player :=
  { player_id := "Player_2", role := PlayerRole.NON_IMPOSTER,
    secret_word := some "beach", model_name := "m" }

/-- Witness fixture: the imposter. -/
def playerW3 : Sim.Player :=
  { player_id := "Player_3", role := PlayerRole.IMPOSTER,
    secret_word := none, model_name := "m" }

/-- Witness fixture: a freshly initialized three-player game state. -/
def stW : Sim.EngineState :=
  { config := { word := "beach", category := "nature", num_players := 3,
                num_imposters := 1, num_rounds := 2 },
    players := [playerW1, playerW2, playerW3],
    phase_trace := [Sim.GamePhase.SETUP] }

/-- Witness fixture: a clue oracle whose Player_2 emits the literal secret
word in round 1, everyone else a harmless clue. -/
def coracleW : Sim.ClueOracle := fun p r _ =>
  if p.player_id = "Player_2" ∧ r = 1 then
    { clue := "beach", thinking := "t", confidence := 50 }
  else
    { clue := "sun", thinking := "t", confidence := 50 }

/-- Witness fixture: a vote oracle that always votes Player_1. -/
def voracleW : Sim.VoteOracle := fun _ =>
  { vote := "Player_1", reasoning := "r", thinking := "t", confidence := 50 }

/-- Witness fixture: a deterministic stand-in for random.choice. -/
def choiceW : Sim.TieChoice := fun l => l.headD ""

/-- Number of voting_round_start events in an event list: how many voting
sub-rounds were entered. -/
def countVRS (evs : List Sim.Event) : Nat :=
  (evs.filter (fun e => match e with
    | Sim.Event.voting_round_start _ _ => true
    | _ => false)).length

/-- Witness fixture: a vote oracle where Player_1 votes Player_2 and
everyone else votes Player_1. -/
def voracleW2 : Sim.VoteOracle := fun q =>
  if q.player.player_id = "Player_1" then
    { vote := "Player_2", reasoning := "r", thinking := "t", confidence := 50 }
  else
    { vote := "Player_1", reasoning := "r", thinking := "t", confidence := 50 }

/-- The query the engine sends on its single corrective re-prompt after an
invalid vote target (engine.py, _execute_voting, correction_messages). -/
def correctedQuery (oracle : Sim.VoteOracle) (q : Sim.VoteQuery)
    (valid_targets : List String) : Sim.VoteQuery :=
  { q with correction := some (Sim.correction_message (oracle q).vote valid_targets) }

/-- Vote oracle used as a witness input: an invalid target first, a valid
one after any corrective re-prompt. -/
def witnessVoteOracle : Sim.VoteOracle := fun q =>
  if q.correction = none then
    { vote := "Player_9", reasoning := "r", thinking := "t", confidence := 50 }
  else
    { vote := "Player_1", reasoning := "r2", thinking := "t2", confidence := 60 }

/-- Vote query used as a witness input. -/
def witnessVoteQuery : Sim.VoteQuery :=
  { player := { player_id := "Player_2", role := PlayerRole.NON_IMPOSTER,
                secret_word := some "beach", model_name := "m" },
    voting_round := 1, total_voting_rounds := 1, clues := [],
    eliminated_players := [], previous_votes := [], word := "beach" }

/-- Concrete final engine state used as a witness input: three players,
one imposter, two eliminations recorded. -/
def witnessFinalState : Sim.EngineState :=
  { config := { word := "beach", category := "nature" },
    players := [{ player_id := "Player_1", role := PlayerRole.IMPOSTER,
                  secret_word := none, model_name := "m" },
                { player_id := "Player_2", role := PlayerRole.NON_IMPOSTER,
                  secret_word := some "beach", model_name := "m" },
                { player_id := "Player_3", role := PlayerRole.NON_IMPOSTER,
                  secret_word := some "beach", model_name := "m" }],
    eliminated_players := ["Player_3", "Player_1"] }

section Helpers

theorem mem_insertSorted (a x : String) (l : List String) :
    x ∈ insertSorted a l ↔ x = a ∨ x ∈ l := by
  induction l with
  | nil => simp [insertSorted]
  | cons b bs ih =>
    simp only [insertSorted]
    split
    · simp
    · simp [ih]; tauto

theorem insertSorted_ne_nil (a : String) (l : List String) : insertSorted a l ≠ [] := by
  cases l with
  | nil => simp [insertSorted]
  | cons b bs => simp only [insertSorted]; split <;> simp

theorem pySorted_eq_nil_iff (l : List String) : pySorted l = [] ↔ l = [] := by
  cases l with
  | nil => simp [pySorted]
  | cons b bs =>
    simp only [pySorted, List.foldr]
    exact ⟨fun h => absurd h (insertSorted_ne_nil _ _), fun h => by simp at h⟩

theorem mem_pySorted (x : String) (l : List String) : x ∈ pySorted l ↔ x ∈ l := by
  induction l with
  | nil => simp [pySorted]
  | cons b bs ih =>
    show x ∈ insertSorted b (pySorted bs) ↔ _
    rw [mem_insertSorted]
    simp [ih]

theorem headD_insertSorted (a d : String) (l : List String) :
    (insertSorted a l).headD d =
      match l with
      | [] => a
      | b :: _ => if a ≤ b then a else b := by
  cases l with
  | nil => simp [insertSorted]
  | cons b bs => simp only [insertSorted]; split <;> simp

theorem pySorted_headD_le (l : List String) (x : String) (hx : x ∈ l) (d : String) :
    (pySorted l).headD d ≤ x := by
  induction l with
  | nil => simp at hx
  | cons y ys ih =>
    show (insertSorted y (pySorted ys)).headD d ≤ x
    rw [headD_insertSorted]
    rcases List.mem_cons.mp hx with rfl | hx
    · cases hS : pySorted ys with
      | nil => simp
      | cons b bs =>
        simp only
        split
        · exact le_refl x
        · exact le_of_not_le (by assumption)
    · have h1 := ih hx
      cases hS : pySorted ys with
      | nil =>
        rw [pySorted_eq_nil_iff] at hS
        subst hS; simp at hx
      | cons b bs =>
        rw [hS] at h1
        simp only [List.headD_cons] at h1
        simp only
        split
        · exact le_trans (by assumption) h1
        · exact h1

theorem pySorted_headD_mem (l : List String) (h : l ≠ []) (d : String) :
    (pySorted l).headD d ∈ l := by
  have hne : pySorted l ≠ [] := fun hc => h ((pySorted_eq_nil_iff l).mp hc)
  cases hS : pySorted l with
  | nil => exact absurd hS hne
  | cons b bs =>
    simp only [List.headD_cons]
    have : b ∈ pySorted l := by rw [hS]; exact List.mem_cons_self b bs
    exact (mem_pySorted b l).mp this

end Helpers

/-- Claim C10: for every input to validate_clue, the ValidationResult never
has instant_reveal and game_over true simultaneously; instant_reveal=true
occurs only for role Imposter, game_over=true only for role NonImposter,
and whenever either flag is true, valid is false. -/
theorem C10_validation_flag_invariants (clue secret_word player_id : String)
    (role : PlayerRole) :
    (¬((Phase2.validate_clue clue secret_word player_id role).instant_reveal = true ∧
       (Phase2.validate_clue clue secret_word player_id role).game_over = true)) ∧
    ((Phase2.validate_clue clue secret_word player_id role).instant_reveal = true →
      role = PlayerRole.IMPOSTER) ∧
    ((Phase2.validate_clue clue secret_word player_id role).game_over = true →
      role = PlayerRole.NON_IMPOSTER) ∧
    (((Phase2.validate_clue clue secret_word player_id role).instant_reveal = true ∨
      (Phase2.validate_clue clue secret_word player_id role).game_over = true) →
      (Phase2.validate_clue clue secret_word player_id role).valid = false) := by
  unfold Phase2.validate_clue
  cases role <;> split_ifs <;> simp_all

/-- Claim C10 witness at a concrete input. -/
theorem C10_validation_flag_invariants_witness :
    (Phase2.validate_clue "beach" "beach" "P1" PlayerRole.IMPOSTER).instant_reveal = true ∧
    PlayerRole.IMPOSTER = PlayerRole.IMPOSTER := by
  refine ⟨by decide, ?_⟩
  exact (C10_validation_flag_invariants "beach" "beach" "P1" PlayerRole.IMPOSTER).2.1 (by decide)

/-- Claim C1: for every clue and secret word equal case-insensitively after
trimming whitespace, validate_clue returns valid=false with
instant_reveal=true and game_over=false for an Imposter, and valid=false
with game_over=true and instant_reveal=false for a NonImposter; the
outcome is the same for every casing of the clue and of the secret word. -/
theorem C1_exact_match_outcome (clue secret_word : String)
    (h : pyStrip (pyLower clue) = pyStrip (pyLower secret_word)) :
    ∀ clue2 secret2 player_id, pyLower clue2 = pyLower clue →
      pyLower secret2 = pyLower secret_word →
      ((Phase2.validate_clue clue2 secret2 player_id PlayerRole.IMPOSTER).valid = false ∧
       (Phase2.validate_clue clue2 secret2 player_id PlayerRole.IMPOSTER).instant_reveal = true ∧
       (Phase2.validate_clue clue2 secret2 player_id PlayerRole.IMPOSTER).game_over = false) ∧
      ((Phase2.validate_clue clue2 secret2 player_id PlayerRole.NON_IMPOSTER).valid = false ∧
       (Phase2.validate_clue clue2 secret2 player_id PlayerRole.NON_IMPOSTER).game_over = true ∧
       (Phase2.validate_clue clue2 secret2 player_id PlayerRole.NON_IMPOSTER).instant_reveal = false) := by
  intro clue2 secret2 player_id h2 h3
  have hc : pyStrip (pyLower clue2) = pyStrip (pyLower secret2) := by
    rw [h2, h3, h]
  constructor <;> (unfold Phase2.validate_clue; rw [if_pos hc]; simp)

/-- Claim C1 witness: the casing variants of the spec's table test. -/
theorem C1_exact_match_outcome_witness :
    pyStrip (pyLower "beach") = pyStrip (pyLower " beach ") ∧
    pyLower "BEACH" = pyLower "beach" ∧
    (Phase2.validate_clue "BEACH" " beach " "P1" PlayerRole.IMPOSTER).instant_reveal = true ∧
    (Phase2.validate_clue "BEACH" " beach " "P1" PlayerRole.NON_IMPOSTER).game_over = true := by
  have h := C1_exact_match_outcome "beach" " beach " (by decide) "BEACH" " beach " "P1"
    (by decide) (by decide)
  exact ⟨by decide, by decide, h.1.2.1, h.2.2.1⟩

/-- Claim C3: check_win_condition reports game_over with winner civilians
exactly when every imposter is eliminated; otherwise it reports game_over
with winner imposters exactly when the surviving imposter count is at
least the remaining civilian count (civilians minus eliminated
non-imposters); otherwise game_over is false and there is no winner. -/
theorem C3_win_condition_cases (e a r : List String) (n : Nat) :
    (((check_win_condition e a r n).game_over = true ∧
      (check_win_condition e a r n).winner = some ("civilians")) ↔
      ∀ p ∈ a, p ∈ e) ∧
    (((check_win_condition e a r n).game_over = true ∧
      (check_win_condition e a r n).winner = some ("imposters")) ↔
      ((∃ p ∈ a, p ∉ e) ∧
        (((a.filter (fun p => !(e.contains p))).length : Int) ≥
          (n : Int) - ((e.filter (fun p => !(a.contains p))).length : Int)))) ∧
    (((check_win_condition e a r n).game_over = false ∧
      (check_win_condition e a r n).winner = none) ↔
      ((∃ p ∈ a, p ∉ e) ∧
        ¬(((a.filter (fun p => !(e.contains p))).length : Int) ≥
          (n : Int) - ((e.filter (fun p => !(a.contains p))).length : Int)))) := by
  simp only [check_win_condition]
  split_ifs with h1 h2 <;>
    simp_all [List.length_eq_zero, List.filter_eq_nil_iff, List.eq_nil_iff_forall_not_mem,
      List.mem_filter]

/-- Claim C3 witness at the spec's table-test inputs. -/
theorem C3_win_condition_cases_witness :
    ((check_win_condition ["A", "B"] ["A", "B"] [] 4).game_over = true ∧
     (check_win_condition ["A", "B"] ["A", "B"] [] 4).winner = some ("civilians")) ∧
    ((check_win_condition [] ["A", "B"] [] 2).game_over = true →
      (check_win_condition [] ["A", "B"] [] 2).winner ≠ some ("civilians")) := by
  constructor
  · exact (C3_win_condition_cases ["A", "B"] ["A", "B"] [] 4).1.mpr (by decide)
  · intro hgo
    have h := (C3_win_condition_cases [] ["A", "B"] [] 2).1
    intro hw
    have := h.mp ⟨hgo, hw⟩
    simp only [List.mem_cons, List.not_mem_nil] at this
    exact this "A" (Or.inl rfl)

/-- Claim C9: resolve_vote_tie with the deterministic method first is a
pure total function on non-empty tied lists: it returns the
lexicographically least id in the list, and its value does not depend on
the injected randomness, so two calls on the same list agree. -/
theorem C9_resolve_tie_first_deterministic (choice1 choice2 : List String → String)
    (tied_players : List String) (h : tied_players ≠ []) :
    resolve_vote_tie choice1 tied_players ("first") ∈ tied_players ∧
    (∀ x ∈ tied_players, resolve_vote_tie choice1 tied_players ("first") ≤ x) ∧
    resolve_vote_tie choice1 tied_players ("first") =
      resolve_vote_tie choice2 tied_players ("first") := by
  have hm : resolve_vote_tie choice1 tied_players ("first") =
      (pySorted tied_players).headD "" := by
    simp [resolve_vote_tie]
  refine ⟨?_, ?_, ?_⟩
  · rw [hm]; exact pySorted_headD_mem tied_players h ""
  · intro x hx; rw [hm]; exact pySorted_headD_le tied_players x hx ""
  · simp [resolve_vote_tie]

/-- Claim C9 witness on a concrete tied list. -/
theorem C9_resolve_tie_first_deterministic_witness :
    (["Player_2", "Player_1", "Player_10"] : List String) ≠ [] ∧
    resolve_vote_tie (fun _ => "zz") ["Player_2", "Player_1", "Player_10"] ("first") ∈
      (["Player_2", "Player_1", "Player_10"] : List String) ∧
    resolve_vote_tie (fun _ => "zz") ["Player_2", "Player_1", "Player_10"] ("first") =
      resolve_vote_tie (fun l => l.headD "") ["Player_2", "Player_1", "Player_10"] ("first") := by
  have h := C9_resolve_tie_first_deterministic (fun _ => "zz") (fun l => l.headD "")
    ["Player_2", "Player_1", "Player_10"] (by decide)
  exact ⟨by decide, h.1, h.2.2⟩

theorem sim_valid_imp_not_word_match (c w pid : String) (role : PlayerRole)
    (hist : List String) (hval : (Sim.validate_clue c w pid role hist).valid = true) :
    pyStrip (pyLower c) ≠ pyStrip (pyLower w) := by
  intro heq
  unfold Sim.validate_clue at hval
  rw [if_pos heq] at hval
  split_ifs at hval <;> simp_all

/-- Claim C4: a clue whose text equals, case-insensitively, the text of
any clue already given earlier in the game (one that passed validation,
by any player in any round) is rejected as invalid, not fatal and not
instant-reveal, given the full prior clue history. -/
theorem C4_duplicate_clue_rejected (clue secret_word player_id : String)
    (role : PlayerRole) (previous_clues : List String)
    (hdup : ∃ c ∈ previous_clues, pyLower c = pyLower clue)
    (hprev : ∀ c ∈ previous_clues, ∃ pid2 role2 hist2,
      (Sim.validate_clue c secret_word pid2 role2 hist2).valid = true) :
    (Sim.validate_clue clue secret_word player_id role previous_clues).valid = false ∧
    (Sim.validate_clue clue secret_word player_id role previous_clues).instant_reveal = false ∧
    (Sim.validate_clue clue secret_word player_id role previous_clues).game_over = false := by
  obtain ⟨c, hc, hlow⟩ := hdup
  obtain ⟨pid2, role2, hist2, hval⟩ := hprev c hc
  have hne : pyStrip (pyLower clue) ≠ pyStrip (pyLower secret_word) := by
    rw [← congrArg pyStrip hlow]
    exact sim_valid_imp_not_word_match c secret_word pid2 role2 hist2 hval
  have hany : previous_clues.any (fun c2 => pyLower c2 = pyLower clue) = true := by
    rw [List.any_eq_true]
    exact ⟨c, hc, by simp [hlow]⟩
  unfold Sim.validate_clue
  rw [if_neg hne]
  split_ifs with h2 <;> simp_all

/-- Claim C4 witness: the spec's sandy-given-twice scenario. -/
theorem C4_duplicate_clue_rejected_witness :
    (∃ c ∈ (["sandy"] : List String), pyLower c = pyLower "Sandy") ∧
    (Sim.validate_clue "Sandy" "beach" "P2" PlayerRole.NON_IMPOSTER ["sandy"]).valid = false ∧
    (Sim.validate_clue "Sandy" "beach" "P2" PlayerRole.NON_IMPOSTER ["sandy"]).game_over = false := by
  have h := C4_duplicate_clue_rejected "Sandy" "beach" "P2" PlayerRole.NON_IMPOSTER ["sandy"]
    ⟨"sandy", by decide, by decide⟩
    (by
      intro c hc
      refine ⟨"P1", PlayerRole.NON_IMPOSTER, [], ?_⟩
      have : c = "sandy" := by simpa using hc
      subst this
      decide)
  exact ⟨⟨"sandy", by decide, by decide⟩, h.1, h.2.2⟩

theorem uniqueKeepFirst_loop_spec (l : List String) :
    ∀ acc : List String, acc.Nodup →
      (l.foldl (fun a t => if a.contains t then a else a ++ [t]) acc).Nodup ∧
      ∀ x, x ∈ l.foldl (fun a t => if a.contains t then a else a ++ [t]) acc ↔
        (x ∈ acc ∨ x ∈ l) := by
  induction l with
  | nil => intro acc hacc; simpa using hacc
  | cons y ys ih =>
    intro acc hacc
    simp only [List.foldl_cons]
    by_cases hy : acc.contains y
    · rw [if_pos hy]
      obtain ⟨h1, h2⟩ := ih acc hacc
      refine ⟨h1, fun x => ?_⟩
      rw [h2 x]
      have hmem : y ∈ acc := List.elem_iff.mp hy
      simp only [List.mem_cons]
      constructor
      · rintro (hx | hx)
        · exact Or.inl hx
        · exact Or.inr (Or.inr hx)
      · rintro (hx | rfl | hx)
        · exact Or.inl hx
        · exact Or.inl hmem
        · exact Or.inr hx
    · rw [if_neg hy]
      have hynot : y ∉ acc := fun hmem => hy (List.elem_iff.mpr hmem)
      have hacc2 : (acc ++ [y]).Nodup := by
        rw [List.nodup_append]
        refine ⟨hacc, List.nodup_singleton y, ?_⟩
        intro a ha hb
        simp only [List.mem_singleton] at hb
        subst hb
        exact hynot ha
      obtain ⟨h1, h2⟩ := ih (acc ++ [y]) hacc2
      refine ⟨h1, fun x => ?_⟩
      rw [h2 x]
      simp only [List.mem_append, List.mem_singleton, List.mem_cons]
      tauto

theorem uniqueKeepFirst_nodup (l : List String) : (uniqueKeepFirst l).Nodup :=
  (uniqueKeepFirst_loop_spec l [] List.nodup_nil).1

theorem mem_uniqueKeepFirst (x : String) (l : List String) :
    x ∈ uniqueKeepFirst l ↔ x ∈ l := by
  rw [uniqueKeepFirst, (uniqueKeepFirst_loop_spec l [] List.nodup_nil).2 x]
  simp

theorem accuracy_formula (elim actual : List String) (hE : elim.Nodup)
    (hA : actual.Nodup) :
    ((elim.filter (fun p => actual.contains p)).length : ℚ) / (actual.length : ℚ) =
    ((elim.toFinset ∩ actual.toFinset).card : ℚ) / (actual.toFinset.card : ℚ) := by
  have h1 : (elim.filter (fun p => actual.contains p)).toFinset =
      elim.toFinset ∩ actual.toFinset := by
    ext x
    simp [List.mem_filter, List.elem_iff]
  have h2 : (elim.filter (fun p => actual.contains p)).Nodup := hE.filter _
  rw [← List.toFinset_card_of_nodup h2, h1, List.toFinset_card_of_nodup hA]

/-- Claim C8: detection_accuracy in the computed GameResult equals the
cardinality of the intersection of the eliminated-player set with the
actual-imposter set, divided by the cardinality of the actual-imposter
set, and is 0 when there are no imposters. -/
theorem C8_detection_accuracy (choice : Sim.TieChoice) (st : Sim.EngineState)
    (hids : (st.players.map (fun p => p.player_id)).Nodup) :
    ((Sim._calculate_results choice st).actual_imposters = [] →
      (Sim._calculate_results choice st).detection_accuracy = 0) ∧
    ((Sim._calculate_results choice st).actual_imposters ≠ [] →
      (Sim._calculate_results choice st).detection_accuracy =
        (((Sim._calculate_results choice st).eliminated_players.toFinset ∩
          (Sim._calculate_results choice st).actual_imposters.toFinset).card : ℚ) /
        ((Sim._calculate_results choice st).actual_imposters.toFinset.card : ℚ)) := by
  have hA : ((st.players.filter (fun p => p.role = PlayerRole.IMPOSTER)).map
      (fun p => p.player_id)).Nodup :=
    hids.sublist (List.Sublist.map _ (List.filter_sublist _))
  unfold Sim._calculate_results
  dsimp only
  constructor
  · intro h0
    rw [h0]
    simp
  · intro h0
    rw [if_pos (by simpa [List.length_eq_zero] using h0)]
    exact accuracy_formula _ _ (uniqueKeepFirst_nodup _) hA

/-- Claim C8 witness at a concrete final state: both eliminations include
the single imposter, so accuracy is 1. -/
theorem C8_detection_accuracy_witness :
    (witnessFinalState.players.map (fun p => p.player_id)).Nodup ∧
    (Sim._calculate_results (fun l => l.headD "") witnessFinalState).actual_imposters ≠ [] ∧
    (Sim._calculate_results (fun l => l.headD "") witnessFinalState).detection_accuracy = 1 := by
  have h := (C8_detection_accuracy (fun l => l.headD "") witnessFinalState (by decide)).2
    (by decide)
  refine ⟨by decide, by decide, ?_⟩
  rw [h]
  have h1 : ((Sim._calculate_results (fun l => l.headD "")
      witnessFinalState).eliminated_players.toFinset ∩
      (Sim._calculate_results (fun l => l.headD "")
      witnessFinalState).actual_imposters.toFinset).card = 1 := by decide
  have h2 : (Sim._calculate_results (fun l => l.headD "")
      witnessFinalState).actual_imposters.toFinset.card = 1 := by decide
  rw [h1, h2]
  norm_num

/-- Claim C7 counterexample: a configuration with imposter count equal to
player count (3 = 3), violating 0 < K < N, is not rejected — setup
succeeds. -/
theorem C7_equal_counts_not_rejected :
    ¬(0 < 3 ∧ 3 < 3) ∧
    (Sim.initialize_game (fun l k => l.take k) id
      { word := "beach", category := "nature",
        num_players := 3, num_imposters := 3 }).isOk = true := by
  exact ⟨by decide, by decide⟩

/-- Claim C7 (amended): game setup rejects any configuration whose
imposter count exceeds the player count, with an error raised before any
external model call is dispatched — the whole run returns the sampling
error no matter what the LLM oracles would answer.  Configurations with
imposter count equal to the player count (or zero) are not rejected. -/
theorem C7_setup_rejects_oversized (sampler : List String → Nat → List String)
    (shuffle : List String → List String) (cfg : Sim.GameConfig)
    (h : cfg.num_imposters > cfg.num_players) :
    ∀ (coracle : Sim.ClueOracle) (voracle : Sim.VoteOracle) (choice : Sim.TieChoice),
      Sim.run_game sampler shuffle coracle voracle choice cfg =
        Except.error ("Sample larger than population or is negative") := by
  intro coracle voracle choice
  unfold Sim.run_game Sim.initialize_game Sim.random_sample
  simp only [List.length_map, List.length_range]
  rw [if_neg (by omega)]

/-- Claim C7 witness: four imposters among three players is rejected. -/
theorem C7_setup_rejects_oversized_witness :
    4 > 3 ∧
    Sim.run_game (fun l k => l.take k) id
      (fun _ _ _ => { clue := "c", thinking := "t", confidence := 1 })
      (fun _ => { vote := "v", reasoning := "r", thinking := "t", confidence := 1 })
      (fun l => l.headD "")
      { word := "beach", category := "nature", num_players := 3, num_imposters := 4 } =
      Except.error ("Sample larger than population or is negative") := by
  refine ⟨by decide, ?_⟩
  exact C7_setup_rejects_oversized (fun l k => l.take k) id
    { word := "beach", category := "nature", num_players := 3, num_imposters := 4 }
    (by decide)
    (fun _ _ _ => { clue := "c", thinking := "t", confidence := 1 })
    (fun _ => { vote := "v", reasoning := "r", thinking := "t", confidence := 1 })
    (fun l => l.headD "")

theorem getVote_ok_mem (oracle : Sim.VoteOracle) (q : Sim.VoteQuery) (vt : List String)
    (r : Sim.SingleVoteResponse) (tgt : String)
    (h : (Sim.getVote oracle q vt).fst = Except.ok (r, tgt)) : tgt ∈ vt := by
  simp only [Sim.getVote] at h
  split_ifs at h with h1 h2 <;>
    simp only [Prod.fst, Except.ok.injEq, Prod.mk.injEq] at h
  · exact h.2 ▸ List.elem_iff.mp h1
  · exact h.2 ▸ List.elem_iff.mp h2

theorem voteTurns_records (oracle : Sim.VoteOracle) (vr tvr : Nat)
    (active : List Sim.Player) :
    ∀ (rest : List Sim.Player) (st : Sim.EngineState) (votes : List Sim.VoteDict)
      (st2 : Sim.EngineState) (votes2 : List Sim.VoteDict),
      Sim.voteTurns oracle vr tvr active rest st votes = Except.ok (st2, votes2) →
      ∃ new, st2.sequential_votes = st.sequential_votes ++ new ∧
        ∀ rec ∈ new, rec.voted_for ∈ (active.filter
          (fun a => a.player_id ≠ rec.player_id)).map (fun a => a.player_id) := by
  intro rest
  induction rest with
  | nil =>
    intro st votes st2 votes2 h
    simp only [Sim.voteTurns] at h
    obtain ⟨h1, h2⟩ : st = st2 ∧ votes = votes2 := by
      simpa using h
    exact ⟨[], by simp [h1], by simp⟩
  | cons p rest ih =>
    intro st votes st2 votes2 h
    simp only [Sim.voteTurns] at h
    split at h
    · exact absurd h (by simp)
    · rename_i response resp_tgt heq
      obtain ⟨new2, hseq, hmem⟩ := ih _ _ _ _ h
      have htgt : resp_tgt ∈ (active.filter
          (fun a => a.player_id ≠ p.player_id)).map (fun a => a.player_id) :=
        getVote_ok_mem _ _ _ _ _ heq
      refine ⟨{ voting_round := vr, player_id := p.player_id, voted_for := resp_tgt,
                reasoning := response.reasoning, thinking := response.thinking,
                confidence := response.confidence } :: new2, ?_, ?_⟩
      · rw [hseq]
        simp
      · intro rec hrec
        rcases List.mem_cons.mp hrec with rfl | hrec2
        · simpa using htgt
        · exact hmem rec hrec2

theorem strContains_middle (x b y : String) : strContains (x ++ b ++ y) b = true := by
  unfold strContains
  rw [List.any_eq_true]
  refine ⟨b.data ++ y.data, ?_, ?_⟩
  · rw [List.mem_tails]
    have hdata : (x ++ b ++ y).data = x.data ++ (b.data ++ y.data) := by
      rw [show (x ++ b ++ y).data = x.data ++ b.data ++ y.data from rfl, List.append_assoc]
    rw [hdata]
    exact List.suffix_append _ _
  · rw [List.isPrefixOf_iff_prefix]
    exact List.prefix_append _ _

/-- Claim C6: a vote naming a target that is not an active player other
than the voter triggers exactly one corrective re-prompt (the oracle is
queried at most twice, the second query carrying the corrective message
that contains the spelled-out valid-target list); if the corrected vote is
still invalid the engine raises the fatal error instead of recording or
substituting; every accepted vote targets a valid target, and every
SingleVoteRecord the voting loop appends targets an active player other
than its voter. -/
theorem C6_vote_target_validation (oracle : Sim.VoteOracle) (q : Sim.VoteQuery)
    (valid_targets : List String) :
    (∀ r tgt, (Sim.getVote oracle q valid_targets).fst = Except.ok (r, tgt) →
      tgt ∈ valid_targets) ∧
    ((oracle q).vote ∈ valid_targets →
      (Sim.getVote oracle q valid_targets).snd = [q] ∧
      (Sim.getVote oracle q valid_targets).fst = Except.ok (oracle q, (oracle q).vote)) ∧
    ((oracle q).vote ∉ valid_targets →
      (Sim.getVote oracle q valid_targets).snd = [q, correctedQuery oracle q valid_targets] ∧
      strContains (Sim.correction_message (oracle q).vote valid_targets)
        (String.intercalate (", ") valid_targets) = true ∧
      ((oracle (correctedQuery oracle q valid_targets)).vote ∉ valid_targets →
        (Sim.getVote oracle q valid_targets).fst = Except.error
          ("Invalid vote target \x27" ++ (oracle (correctedQuery oracle q valid_targets)).vote ++
            "\x27 from " ++ q.player.player_id ++ " after retry"))) ∧
    (∀ (vr tvr : Nat) (active rest : List Sim.Player) (st : Sim.EngineState)
        (votes : List Sim.VoteDict) (st2 : Sim.EngineState) (votes2 : List Sim.VoteDict),
      Sim.voteTurns oracle vr tvr active rest st votes = Except.ok (st2, votes2) →
      ∃ new, st2.sequential_votes = st.sequential_votes ++ new ∧
        ∀ rec ∈ new, rec.voted_for ∈ (active.filter
          (fun a => a.player_id ≠ rec.player_id)).map (fun a => a.player_id)) := by
  refine ⟨fun r tgt h => getVote_ok_mem oracle q valid_targets r tgt h, ?_, ?_,
    fun vr tvr active rest st votes st2 votes2 h =>
      voteTurns_records oracle vr tvr active rest st votes st2 votes2 h⟩
  · intro hv
    have hb : valid_targets.contains (oracle q).vote = true := List.elem_iff.mpr hv
    constructor <;> simp only [Sim.getVote, if_pos hb]
  · intro hv
    have hb : ¬(valid_targets.contains (oracle q).vote = true) :=
      fun hc => hv (List.elem_iff.mp hc)
    refine ⟨?_, ?_, ?_⟩
    · simp only [Sim.getVote, if_neg hb, correctedQuery]
      split <;> rfl
    · simp only [Sim.correction_message]
      exact strContains_middle _ _ _
    · intro hv2
      have hb2 : ¬(valid_targets.contains
          (oracle (correctedQuery oracle q valid_targets)).vote = true) :=
        fun hc => hv2 (List.elem_iff.mp hc)
      simp only [correctedQuery] at hb2 ⊢
      simp only [Sim.getVote, if_neg hb, if_neg hb2]

/-- Claim C6 witness: a concrete invalid first vote is re-prompted once
with the valid-targets list and the corrected valid vote is accepted. -/
theorem C6_vote_target_validation_witness :
    (witnessVoteOracle witnessVoteQuery).vote ∉ (["Player_1", "Player_3"] : List String) ∧
    (Sim.getVote witnessVoteOracle witnessVoteQuery ["Player_1", "Player_3"]).snd =
      [witnessVoteQuery,
       correctedQuery witnessVoteOracle witnessVoteQuery ["Player_1", "Player_3"]] ∧
    strContains (Sim.correction_message (witnessVoteOracle witnessVoteQuery).vote
      ["Player_1", "Player_3"]) (String.intercalate (", ") ["Player_1", "Player_3"]) = true := by
  have h := (C6_vote_target_validation witnessVoteOracle witnessVoteQuery
    ["Player_1", "Player_3"]).2.2.1 (by decide)
  exact ⟨by decide, h.1, h.2.1⟩

theorem sim_game_over_flags (c w pid : String) (role : PlayerRole) (hist : List String)
    (h : (Sim.validate_clue c w pid role hist).game_over = true) :
    (Sim.validate_clue c w pid role hist).instant_reveal = false ∧
    (Sim.validate_clue c w pid role hist).valid = false := by
  unfold Sim.validate_clue at *
  split_ifs at * <;> simp_all

theorem clueTurn_preserves (oracle : Sim.ClueOracle) (st : Sim.EngineState)
    (p : Sim.Player) :
    (Sim.clueTurn oracle st p).config = st.config ∧
    (Sim.clueTurn oracle st p).players = st.players ∧
    (Sim.clueTurn oracle st p).current_round = st.current_round ∧
    (Sim.clueTurn oracle st p).phase_trace = st.phase_trace ∧
    (Sim.clueTurn oracle st p).sequential_votes = st.sequential_votes ∧
    (Sim.clueTurn oracle st p).all_votes = st.all_votes := by
  simp only [Sim.clueTurn]
  split_ifs <;> exact ⟨rfl, rfl, rfl, rfl, rfl, rfl⟩

theorem clueTurn_fatal_effects (oracle : Sim.ClueOracle) (st : Sim.EngineState)
    (p : Sim.Player)
    (hv : (Sim.validate_clue (oracle p st.current_round (Sim._get_clue_dicts st)).clue
      st.config.word p.player_id p.role
      (st.all_clues.map (fun c => c.clue))).game_over = true) :
    (Sim.clueTurn oracle st p).game_ended_early = true ∧
    (Sim.clueTurn oracle st p).all_clues = st.all_clues ∧
    (Sim.clueTurn oracle st p).eliminated_players = st.eliminated_players := by
  obtain ⟨hir, hval⟩ := sim_game_over_flags _ _ _ _ _ hv
  simp only [Sim.clueTurn, Sim._get_clue_dicts] at *
  rw [if_neg (by simp [hval]), if_pos hv, if_neg (by simp [hir])]
  exact ⟨rfl, rfl, rfl⟩

theorem clueTurns_preserves (oracle : Sim.ClueOracle) :
    ∀ (ps : List Sim.Player) (st : Sim.EngineState),
      (Sim.clueTurns oracle ps st).config = st.config ∧
      (Sim.clueTurns oracle ps st).players = st.players ∧
      (Sim.clueTurns oracle ps st).current_round = st.current_round ∧
      (Sim.clueTurns oracle ps st).phase_trace = st.phase_trace ∧
      (Sim.clueTurns oracle ps st).sequential_votes = st.sequential_votes ∧
      (Sim.clueTurns oracle ps st).all_votes = st.all_votes := by
  intro ps
  induction ps with
  | nil => intro st; exact ⟨rfl, rfl, rfl, rfl, rfl, rfl⟩
  | cons p rest ih =>
    intro st
    have hp := clueTurn_preserves oracle st p
    have hr := ih (Sim.clueTurn oracle st p)
    simp only [Sim.clueTurns]
    split
    · exact hp
    · exact ⟨hr.1.trans hp.1, hr.2.1.trans hp.2.1, hr.2.2.1.trans hp.2.2.1,
        hr.2.2.2.1.trans hp.2.2.2.1, hr.2.2.2.2.1.trans hp.2.2.2.2.1,
        hr.2.2.2.2.2.trans hp.2.2.2.2.2⟩

theorem clueTurns_append (oracle : Sim.ClueOracle) (xs ys : List Sim.Player) :
    ∀ st : Sim.EngineState, (Sim.clueTurns oracle xs st).game_ended_early = false →
      Sim.clueTurns oracle (xs ++ ys) st =
        Sim.clueTurns oracle ys (Sim.clueTurns oracle xs st) := by
  induction xs with
  | nil => intro st _; rfl
  | cons p rest ih =>
    intro st h
    simp only [Sim.clueTurns, List.cons_append] at h ⊢
    by_cases hf : (Sim.clueTurn oracle st p).game_ended_early = true
    · rw [if_pos hf] at h
      exact absurd h (by simp [hf])
    · simp only [if_neg hf] at h ⊢
      exact ih _ h

theorem clueTurns_cons_fatal (oracle : Sim.ClueOracle) (v : Sim.Player)
    (post : List Sim.Player) (st : Sim.EngineState)
    (hf : (Sim.clueTurn oracle st v).game_ended_early = true) :
    Sim.clueTurns oracle (v :: post) st = Sim.clueTurn oracle st v := by
  simp only [Sim.clueTurns, if_pos hf]

theorem toFinset_uniqueKeepFirst (l : List String) :
    (uniqueKeepFirst l).toFinset = l.toFinset := by
  ext x
  simp [List.mem_toFinset, mem_uniqueKeepFirst]

/-- Claim C2: when a NonImposter's clue in round r is the fatal violation
(validate_clue returns game_over=true) after the earlier players of round
r took their turns without incident, the whole run returns the result
computed directly from the state after the violator's turn: players after
the violator get no turn (the clue list is exactly the pre-violator one),
no further clue round runs, total_rounds is r (not the configured count),
the Voting phase is never entered, no votes are recorded, and the result
carries exactly the eliminations recorded so far. -/
theorem C2_fatal_spoil_short_circuit
    (coracle : Sim.ClueOracle) (voracle : Sim.VoteOracle) (choice : Sim.TieChoice)
    (st : Sim.EngineState) (r n : Nat) (pre post : List Sim.Player) (v : Sim.Player)
    (hplayers : st.players = pre ++ v :: post)
    (hVOT : Sim.GamePhase.VOTING ∉ st.phase_trace)
    (hav : st.all_votes = [])
    (hpre : (preTurnsState coracle st r pre).game_ended_early = false)
    (hv : (Sim.validate_clue
      (coracle v (preTurnsState coracle st r pre).current_round
        (Sim._get_clue_dicts (preTurnsState coracle st r pre))).clue
      (preTurnsState coracle st r pre).config.word v.player_id v.role
      ((preTurnsState coracle st r pre).all_clues.map (fun c => c.clue))).game_over
        = true) :
    Sim.run_game_from coracle voracle choice r (n + 1) st =
      Except.ok (Sim.finishGame choice (fatalTurnState coracle st r pre v)) ∧
    (Sim.finishGame choice (fatalTurnState coracle st r pre v)).fst.total_rounds = r ∧
    Sim.GamePhase.VOTING ∉
      (Sim.finishGame choice (fatalTurnState coracle st r pre v)).snd.phase_trace ∧
    (Sim.finishGame choice (fatalTurnState coracle st r pre v)).snd.sequential_votes =
      st.sequential_votes ∧
    (fatalTurnState coracle st r pre v).all_clues =
      (preTurnsState coracle st r pre).all_clues ∧
    (Sim.finishGame choice (fatalTurnState coracle st r pre v)).fst.eliminated_players.toFinset =
      (fatalTurnState coracle st r pre v).eliminated_players.toFinset := by
  have hPt := clueTurns_preserves coracle pre (roundEntry st r)
  have hTp := clueTurn_preserves coracle (preTurnsState coracle st r pre) v
  have hfatal := clueTurn_fatal_effects coracle (preTurnsState coracle st r pre) v hv
  have hflagV : (fatalTurnState coracle st r pre v).game_ended_early = true := hfatal.1
  -- the clue round at r runs the pre players, then aborts at v
  have hround : Sim._execute_clue_round coracle (roundEntry st r) =
      fatalTurnState coracle st r pre v := by
    unfold Sim._execute_clue_round fatalTurnState preTurnsState
    have hp : (roundEntry st r).players = pre ++ v :: post := hplayers
    rw [hp, clueTurns_append coracle pre (v :: post) (roundEntry st r) hpre,
        clueTurns_cons_fatal coracle v post (Sim.clueTurns coracle pre (roundEntry st r))
          hflagV]
  -- the round loop stops at round r
  have hloop : Sim.roundLoop coracle r (n + 1) st = fatalTurnState coracle st r pre v := by
    simp only [Sim.roundLoop]
    have e1 : ({ st with
        current_round := r,
        phase_trace := st.phase_trace ++ [Sim.GamePhase.CLUE_ROUND] } : Sim.EngineState)
        = roundEntry st r := rfl
    rw [e1, hround, if_pos hflagV]
  -- the run skips voting and computes the result
  have hrun : Sim.run_game_from coracle voracle choice r (n + 1) st =
      Except.ok (Sim.finishGame choice (fatalTurnState coracle st r pre v)) := by
    unfold Sim.run_game_from
    rw [hloop, if_pos hflagV]
  have hcr : (fatalTurnState coracle st r pre v).current_round = r :=
    hTp.2.2.1.trans hPt.2.2.1
  have htrace : (fatalTurnState coracle st r pre v).phase_trace =
      st.phase_trace ++ [Sim.GamePhase.CLUE_ROUND] :=
    hTp.2.2.2.1.trans hPt.2.2.2.1
  have hsv : (fatalTurnState coracle st r pre v).sequential_votes = st.sequential_votes :=
    hTp.2.2.2.2.1.trans hPt.2.2.2.2.1
  have hv0 : (fatalTurnState coracle st r pre v).all_votes = [] :=
    (hTp.2.2.2.2.2.trans hPt.2.2.2.2.2).trans hav
  refine ⟨hrun, hcr, ?_, hsv, hfatal.2.1, ?_⟩
  · show Sim.GamePhase.VOTING ∉
      (fatalTurnState coracle st r pre v).phase_trace ++
        [Sim.GamePhase.REVEAL] ++ [Sim.GamePhase.COMPLETE]
    rw [htrace]
    simp [hVOT]
  · have helim : (Sim.finishGame choice (fatalTurnState coracle st r pre v)).fst.eliminated_players
        = uniqueKeepFirst ((fatalTurnState coracle st r pre v).eliminated_players ++ []) := by
      simp only [Sim.finishGame, Sim._calculate_results]
      simp [hv0, uniqueKeepFirst]
    rw [helim, List.append_nil, toFinset_uniqueKeepFirst]

/-- Claim C2 witness: the spec's end-to-end scenario of a non-imposter
spoiling the word in round 1 of a 2-round game. -/
theorem C2_fatal_spoil_short_circuit_witness :
    (preTurnsState coracleW stW 1 [playerW1]).game_ended_early = false ∧
    (Sim.finishGame choiceW
      (fatalTurnState coracleW stW 1 [playerW1] playerW2)).fst.total_rounds = 1 ∧
    Sim.GamePhase.VOTING ∉ (Sim.finishGame choiceW
      (fatalTurnState coracleW stW 1 [playerW1] playerW2)).snd.phase_trace ∧
    (fatalTurnState coracleW stW 1 [playerW1] playerW2).all_clues =
      (preTurnsState coracleW stW 1 [playerW1]).all_clues := by
  have h := C2_fatal_spoil_short_circuit coracleW voracleW choiceW stW 1 1
    [playerW1] [playerW3] playerW2 rfl (by decide) rfl (by decide) (by decide)
  exact ⟨by decide, h.2.1, h.2.2.1, h.2.2.2.2.1⟩

theorem countVRS_append (a b : List Sim.Event) :
    countVRS (a ++ b) = countVRS a + countVRS b := by
  simp [countVRS, List.filter_append]

theorem voteTurns_effects (oracle : Sim.VoteOracle) (vr tvr : Nat)
    (active : List Sim.Player) :
    ∀ (rest : List Sim.Player) (st : Sim.EngineState) (votes : List Sim.VoteDict)
      (st2 : Sim.EngineState) (votes2 : List Sim.VoteDict),
      Sim.voteTurns oracle vr tvr active rest st votes = Except.ok (st2, votes2) →
      st2.eliminated_players = st.eliminated_players ∧
      st2.players = st.players ∧
      st2.config = st.config ∧
      countVRS st2.events = countVRS st.events ∧
      votes2.length = votes.length + rest.length := by
  intro rest
  induction rest with
  | nil =>
    intro st votes st2 votes2 h
    simp only [Sim.voteTurns] at h
    obtain ⟨h1, h2⟩ : st = st2 ∧ votes = votes2 := by simpa using h
    subst h1; subst h2
    exact ⟨rfl, rfl, rfl, rfl, by simp⟩
  | cons p rest ih =>
    intro st votes st2 votes2 h
    simp only [Sim.voteTurns] at h
    split at h
    · exact absurd h (by simp)
    · rename_i response resp_tgt heq
      obtain ⟨h1, h2, h3, h4, h5⟩ := ih _ _ _ _ h
      refine ⟨h1, h2, h3, ?_, ?_⟩
      · rw [h4]
        simp [countVRS_append, countVRS]
      · rw [h5]
        simp only [List.length_append, List.length_cons, List.length_nil]
        omega

theorem exists_active_iff_filter_ne (players : List Sim.Player) (elim : List String) :
    (∃ p ∈ players, p.player_id ∉ elim) ↔
    players.filter (fun p => !(elim.contains p.player_id)) ≠ [] := by
  constructor
  · rintro ⟨p, hp, hne⟩ hnil
    have := List.filter_eq_nil_iff.mp hnil p hp
    simp [List.elem_iff] at this
    exact hne this
  · intro h
    by_contra hc
    push_neg at hc
    apply h
    rw [List.filter_eq_nil_iff]
    intro p hp
    simp [List.elem_iff]
    exact hc p hp

theorem not_game_over_active (st1 : Sim.EngineState)
    (h : (Sim._check_win_condition st1).game_over = false) :
    ∃ p ∈ st1.players, p.player_id ∉ st1.eliminated_players := by
  simp only [Sim._check_win_condition, check_win_condition] at h
  split_ifs at h with h1 h2
  have hsurv : (((st1.players.filter (fun p => p.role = PlayerRole.IMPOSTER)).map
      (fun p => p.player_id)).filter
      (fun p => !(st1.eliminated_players.contains p))) ≠ [] := by
    intro hc
    exact h1 (by rw [hc]; rfl)
  obtain ⟨x, hx⟩ := List.exists_mem_of_ne_nil _ hsurv
  rw [List.mem_filter] at hx
  obtain ⟨hx1, hx2⟩ := hx
  rw [List.mem_map] at hx1
  obtain ⟨p, hp, rfl⟩ := hx1
  rw [List.mem_filter] at hp
  refine ⟨p, hp.1, ?_⟩
  intro hmem
  rw [Bool.not_eq_true'] at hx2
  have hct : st1.eliminated_players.contains p.player_id = true := List.elem_iff.mpr hmem
  exact absurd (hct.symm.trans hx2) (by simp)

theorem votingSubRound_effects (oracle : Sim.VoteOracle) (choice : Sim.TieChoice)
    (vr tvr : Nat) (st0 : Sim.EngineState)
    (hactive : ∃ p ∈ st0.players, p.player_id ∉ st0.eliminated_players) :
    ∀ (st1 : Sim.EngineState) (b : Bool),
      Sim.votingSubRound oracle choice vr tvr st0 = Except.ok (st1, b) →
      b = true ∧
      (∃ x, st1.eliminated_players = st0.eliminated_players ++ [x]) ∧
      countVRS st1.events = countVRS st0.events + 1 ∧
      st1.players = st0.players ∧
      st1.config = st0.config := by
  intro st1 b h
  simp only [Sim.votingSubRound] at h
  split at h
  · exact absurd h (by simp)
  · rename_i st2 votes heq
    obtain ⟨e1, e2, e3, e4, e5⟩ := voteTurns_effects oracle vr tvr _ _ _ _ _ _ heq
    have hne : st0.players.filter
        (fun p => !(st0.eliminated_players.contains p.player_id)) ≠ [] :=
      (exists_active_iff_filter_ne st0.players st0.eliminated_players).mp hactive
    have hlen : ¬(votes.length = 0) := by
      rw [e5]
      simp only [List.length_nil, Nat.zero_add]
      intro hc
      exact hne (List.length_eq_zero.mp hc)
    rw [if_neg hlen] at h
    simp only [Except.ok.injEq, Prod.mk.injEq] at h
    obtain ⟨hst, hb⟩ := h
    dsimp only at e1 e2 e3 e4
    subst hst
    refine ⟨hb.symm, ?_, ?_, e2, e3⟩
    · dsimp only
      rw [e1]
      exact ⟨_, rfl⟩
    · dsimp only
      rw [countVRS_append, e4, countVRS_append]
      simp [countVRS]

theorem votingLoop_effects (oracle : Sim.VoteOracle) (choice : Sim.TieChoice)
    (tvr : Nat) :
    ∀ (n vr : Nat) (st0 st2 : Sim.EngineState),
      (∃ p ∈ st0.players, p.player_id ∉ st0.eliminated_players) →
      Sim.votingLoop oracle choice tvr vr n st0 = Except.ok st2 →
      ∃ m ≤ n, ∃ new : List String,
        st2.eliminated_players = st0.eliminated_players ++ new ∧
        new.length = m ∧
        countVRS st2.events = countVRS st0.events + m := by
  intro n
  induction n with
  | zero =>
    intro vr st0 st2 _ h
    simp only [Sim.votingLoop, Except.ok.injEq] at h
    subst h
    exact ⟨0, Nat.le_refl 0, [], by simp, rfl, by simp⟩
  | succ n ih =>
    intro vr st0 st2 hactive h
    simp only [Sim.votingLoop] at h
    split at h
    · exact absurd h (by simp)
    · rename_i st1 b heq
      obtain ⟨hb, ⟨x, hx⟩, hev, hpl, _hcfg⟩ :=
        votingSubRound_effects oracle choice vr tvr st0 hactive st1 b heq
      subst hb
      by_cases hw : (Sim._check_win_condition st1).game_over = true
      · rw [if_pos (by simp [hw])] at h
        simp only [Except.ok.injEq] at h
        subst h
        exact ⟨1, by omega, [x], hx, rfl, by simpa using hev⟩
      · rw [if_neg (by simp [hw])] at h
        have hactive1 : ∃ p ∈ st1.players, p.player_id ∉ st1.eliminated_players :=
          not_game_over_active st1 (Bool.eq_false_iff.mpr hw)
        obtain ⟨m, hm, new2, hnew2, hlen2, hev2⟩ := ih vr.succ st1 st2 hactive1 h
        refine ⟨m + 1, by omega, x :: new2, ?_, by simp [hlen2], ?_⟩
        · rw [hnew2, hx]
          simp
        · rw [hev2, hev]
          omega

theorem votingLoop_stops_on_win (oracle : Sim.VoteOracle) (choice : Sim.TieChoice)
    (tvr vr n : Nat) (st0 st1 : Sim.EngineState)
    (hsub : Sim.votingSubRound oracle choice vr tvr st0 = Except.ok (st1, true))
    (hwin : (Sim._check_win_condition st1).game_over = true) :
    Sim.votingLoop oracle choice tvr vr (n + 1) st0 = Except.ok st1 := by
  simp only [Sim.votingLoop, hsub]
  simp [hwin]

/-- Claim C5: for a game state entering the Voting phase with at least
one active (non-eliminated) player — true of every reachable voting entry,
since clue rounds instant-eliminate only imposters and under the 1 <= K <
N configuration a non-imposter always survives to voting, and maintained
across sub-rounds because a loop that continues has just seen the win
check fail, which requires a surviving (hence active) imposter — a voting
phase that returns normally entered m sub-rounds for some m at most K
(counted by the voting_round_start events) and appended exactly one
eliminated id per sub-round entered; and after a sub-round whose
elimination meets the win condition the loop returns at once, so the
remaining sub-rounds do not run. -/
theorem C5_voting_subrounds (voracle : Sim.VoteOracle) (choice : Sim.TieChoice)
    (st : Sim.EngineState)
    (hactive : ∃ p ∈ st.players, p.player_id ∉ st.eliminated_players) :
    (∀ st2, Sim._execute_voting voracle choice st = Except.ok st2 →
      ∃ m ≤ st.config.num_imposters, ∃ new : List String,
        st2.eliminated_players = st.eliminated_players ++ new ∧
        new.length = m ∧
        countVRS st2.events = countVRS st.events + m) ∧
    (∀ (vr n : Nat) (st0 st1 : Sim.EngineState),
      Sim.votingSubRound voracle choice vr st.config.num_imposters st0 =
        Except.ok (st1, true) →
      (Sim._check_win_condition st1).game_over = true →
      Sim.votingLoop voracle choice st.config.num_imposters vr (n + 1) st0 =
        Except.ok st1) := by
  constructor
  · intro st2 h
    exact votingLoop_effects voracle choice st.config.num_imposters
      st.config.num_imposters 1 st st2 hactive h
  · intro vr n st0 st1 hsub hwin
    exact votingLoop_stops_on_win voracle choice st.config.num_imposters vr n st0 st1
      hsub hwin

/-- Claim C5 witness: a concrete one-imposter voting phase that eliminates
exactly one player in its single sub-round. -/
theorem C5_voting_subrounds_witness :
    (∃ p ∈ stW.players, p.player_id ∉ stW.eliminated_players) ∧
    ∃ st2, Sim._execute_voting voracleW2 choiceW stW = Except.ok st2 ∧
      ∃ m ≤ stW.config.num_imposters, ∃ new : List String,
        st2.eliminated_players = stW.eliminated_players ++ new ∧ new.length = m ∧
        countVRS st2.events = countVRS stW.events + m := by
  obtain ⟨st2, hst2⟩ : ∃ st2, Sim._execute_voting voracleW2 choiceW stW = Except.ok st2 :=
    ⟨_, rfl⟩
  exact ⟨by decide, st2, hst2,
    (C5_voting_subrounds voracleW2 choiceW stW (by decide)).1 st2 hst2⟩
